import Mathlib

/-!
Verification of the Flow Control Core of an AI call-center engine.

The definitions below are a shallow embedding of the Python sources:
  app/flow_control/journey/{models,matcher,engine}.py
  app/flow_control/guideline/{models,matcher,loader,store}.py
  app/flow_control/validator/post_validator.py
  app/tools/{executor,registry}.py and the tool registrations.

LLM calls, Redis and PostgreSQL are external effects; they are modelled as
explicit parameters (the parsed model reply, the key/value state, the rows
the store would return).  Floating point confidences are modelled as
rationals; timestamps as naturals supplied by the caller.
-/

namespace AICC

/-- A Python/JSON value, used for tool arguments, context variables and
raw violation records. -/
inductive Json where
  | null : Json
  | bool (b : Bool) : Json
  | num (n : Int) : Json
  | str (s : String) : Json
  | arr (elems : List Json) : Json
  | obj (fields : List (String × Json)) : Json

/-- Python truthiness of a JSON value (`if value:`). -/
def Json.truthy : Json → Bool
  | .null => false
  | .bool b => b
  | .num n => n != 0
  | .str s => s != ""
  | .arr xs => !xs.isEmpty
  | .obj fs => !fs.isEmpty

/-- Escape one character for a JSON string literal. -/
def jsonEscapeChar (c : Char) : String :=
  if c = '"' then "\\\"" else if c = '\\' then "\\\\" else String.singleton c

/-- Escape a string for a JSON string literal. -/
def jsonEscape (s : String) : String :=
  String.join (s.toList.map jsonEscapeChar)

/-- Sort association-list entries by key, as `sort_keys=True` does. -/
def sortByKey {β : Type} (fields : List (String × β)) : List (String × β) :=
  List.insertionSort (fun a b => a.1 ≤ b.1) fields

/-- `json.dumps(value, sort_keys=True)` with the default separators.
Each object's fields are rendered and then ordered by their raw key, which
renders the same text as sorting the fields before rendering. -/
def Json.dumps : Json → String
  | .null => "null"
  | .bool true => "true"
  | .bool false => "false"
  | .num n => toString n
  | .str s => "\"" ++ jsonEscape s ++ "\""
  | .arr xs =>
      "[" ++ String.intercalate ", " (xs.attach.map (fun e => Json.dumps e.1)) ++ "]"
  | .obj fs =>
      "\x7b" ++ String.intercalate ", "
        ((sortByKey (fs.attach.map (fun f => (f.1.1, Json.dumps f.1.2)))).map
          (fun kv => "\"" ++ jsonEscape kv.1 ++ "\": " ++ kv.2)) ++ "\x7d"
decreasing_by
  · obtain ⟨ev, he⟩ := e
    have h1 := List.sizeOf_lt_of_mem he
    simp only [Json.arr.sizeOf_spec]
    omega
  · obtain ⟨⟨k, v⟩, hf⟩ := f
    have h1 := List.sizeOf_lt_of_mem hf
    simp only [Json.obj.sizeOf_spec, Prod.mk.sizeOf_spec] at h1 ⊢
    omega

/-- `ToolExecutor._compute_cache_key`: key-sorted canonical JSON of the
arguments, hashed (the hash `h` models `sha256(..).hexdigest()`), first 16
hex characters. -/
def computeCacheKey (h : String → String) (toolName : String)
    (args : List (String × Json)) : String :=
  "tool:result:" ++ toolName ++ ":" ++ (h (Json.dumps (Json.obj args))).take 16

/-- Sorting by key is insensitive to the initial order of the entries when
the keys are distinct. -/
theorem sortByKey_eq_of_perm {β : Type} {l₁ l₂ : List (String × β)}
    (hp : l₁.Perm l₂) (hnd : (l₁.map Prod.fst).Nodup) :
    sortByKey l₁ = sortByKey l₂ := by
  haveI : IsTotal (String × β) (fun a b => a.1 ≤ b.1) :=
    ⟨fun a b => le_total a.1 b.1⟩
  haveI : IsTrans (String × β) (fun a b => a.1 ≤ b.1) :=
    ⟨fun _ _ _ hab hbc => le_trans hab hbc⟩
  haveI : IsAntisymm (String × β) (fun a b : String × β => a.1 < b.1) :=
    ⟨fun a b h1 h2 => absurd (lt_trans h1 h2) (lt_irrefl _)⟩
  have hperm1 : (sortByKey l₁).Perm l₁ := List.perm_insertionSort _ l₁
  have hperm2 : (sortByKey l₂).Perm l₂ := List.perm_insertionSort _ l₂
  have hs1 : List.Sorted (fun a b : String × β => a.1 ≤ b.1) (sortByKey l₁) :=
    List.sorted_insertionSort _ l₁
  have hs2 : List.Sorted (fun a b : String × β => a.1 ≤ b.1) (sortByKey l₂) :=
    List.sorted_insertionSort _ l₂
  have hnd2 : (l₂.map Prod.fst).Nodup := ((hp.map Prod.fst).nodup_iff).mp hnd
  have hne1 : (sortByKey l₁).Pairwise (fun a b : String × β => a.1 ≠ b.1) := by
    have : ((sortByKey l₁).map Prod.fst).Nodup :=
      ((hperm1.map Prod.fst).nodup_iff).mpr hnd
    exact List.pairwise_map.mp this
  have hne2 : (sortByKey l₂).Pairwise (fun a b : String × β => a.1 ≠ b.1) := by
    have : ((sortByKey l₂).map Prod.fst).Nodup :=
      ((hperm2.map Prod.fst).nodup_iff).mpr hnd2
    exact List.pairwise_map.mp this
  have hlt1 : List.Sorted (fun a b : String × β => a.1 < b.1) (sortByKey l₁) :=
    (hs1.and hne1).imp (fun h => lt_of_le_of_ne h.1 h.2)
  have hlt2 : List.Sorted (fun a b : String × β => a.1 < b.1) (sortByKey l₂) :=
    (hs2.and hne2).imp (fun h => lt_of_le_of_ne h.1 h.2)
  exact List.eq_of_perm_of_sorted (hperm1.trans (hp.trans hperm2.symm)) hlt1 hlt2

/-- **C9**: for every tool name and every pair of argument dictionaries that
are equal as key-value maps (a key-distinct permutation of one another), the
tool-result cache key is identical regardless of argument insertion order. -/
theorem cache_key_invariant_under_arg_permutation
    (h : String → String) (tool : String) (args₁ args₂ : List (String × Json))
    (hp : args₁.Perm args₂) (hnd : (args₁.map Prod.fst).Nodup) :
    computeCacheKey h tool args₁ = computeCacheKey h tool args₂ := by
  have hmap : (args₁.map (fun f => (f.1, Json.dumps f.2))).Perm
      (args₂.map (fun f => (f.1, Json.dumps f.2))) := hp.map _
  have hndm : ((args₁.map (fun f => (f.1, Json.dumps f.2))).map Prod.fst).Nodup := by
    have : (args₁.map (fun f => (f.1, Json.dumps f.2))).map Prod.fst
        = args₁.map Prod.fst := by
      simp
    rw [this]; exact hnd
  have hsort := sortByKey_eq_of_perm hmap hndm
  have hdump : Json.dumps (Json.obj args₁) = Json.dumps (Json.obj args₂) := by
    rw [Json.dumps, Json.dumps]
    have e₁ : args₁.attach.map (fun f => (f.1.1, Json.dumps f.1.2))
        = args₁.map (fun f => (f.1, Json.dumps f.2)) := by
      simp [List.map_attach]
    have e₂ : args₂.attach.map (fun f => (f.1.1, Json.dumps f.1.2))
        = args₂.map (fun f => (f.1, Json.dumps f.2)) := by
      simp [List.map_attach]
    rw [e₁, e₂, hsort]
  unfold computeCacheKey
  rw [hdump]

/-- Witness for C9 at a concrete input. -/
theorem cache_key_invariant_witness :
    computeCacheKey (fun s => s) "get_claim_status"
        [("a", Json.num 1), ("b", Json.num 2)]
      = computeCacheKey (fun s => s) "get_claim_status"
        [("b", Json.num 2), ("a", Json.num 1)] :=
  cache_key_invariant_under_arg_permutation (fun s => s) "get_claim_status"
    [("a", Json.num 1), ("b", Json.num 2)]
    [("b", Json.num 2), ("a", Json.num 1)]
    (List.Perm.swap _ _ _) (by decide)

/-! ## Journey data model (app/flow_control/journey/models.py) -/

/-- A transition between states (`JourneyTransition`). -/
structure JourneyTransition where
  from_state : String
  to_state : String
  condition : String
  priority : Int
deriving Repr, DecidableEq

/-- A state in a journey state machine (`JourneyState`). -/
structure JourneyState where
  name : String
  action : String
  tools : List String
deriving Repr, DecidableEq

/-- A complete journey definition (`Journey`); the state map is an
association list keyed by state name. -/
structure Journey where
  id : Nat
  name : String
  description : Option String
  activation_conditions : String
  initial_state : String
  states : List (String × JourneyState)
  transitions : List JourneyTransition
  enabled : Bool
deriving Repr, DecidableEq

/-- `Journey.get_state`: dictionary lookup by state name. -/
def Journey.get_state (j : Journey) (state_name : String) : Option JourneyState :=
  j.states.lookup state_name

/-- `Journey.get_transitions_from`: all transitions leaving a state. -/
def Journey.get_transitions_from (j : Journey) (state_name : String) :
    List JourneyTransition :=
  j.transitions.filter (fun t => t.from_state = state_name)

/-- One entry of `JourneyContext.state_history`; the Python dict keys that
vary between event kinds are optional fields. -/
structure HistoryEvent where
  event : String
  from_state : Option String
  to_state : Option String
  reason : Option String
  final_state : Option String
  timestamp : Nat
deriving Repr, DecidableEq

/-- An empty history event, filled per call site. -/
def HistoryEvent.base : HistoryEvent :=
  ⟨"", none, none, none, none, 0⟩

/-- Runtime state of an active journey instance (`JourneyContext`).
The Python field `variables` is spelled `vars` because `variables` is a
reserved word in Lean. -/
structure JourneyContext where
  id : Nat
  session_id : String
  journey_id : Nat
  journey_name : String
  current_state : String
  vars : List (String × Json)
  state_history : List HistoryEvent
  activated_at : Option Nat
  completed_at : Option Nat
  created_at : Option Nat
  updated_at : Option Nat

/-- `JourneyContext.is_active`: true while `completed_at` is unset. -/
def JourneyContext.is_active (ctx : JourneyContext) : Bool :=
  ctx.completed_at.isNone

/-- `JourneyContext.add_to_history`: append the event stamped with the
current time (`now` models `datetime.utcnow()`). -/
def JourneyContext.add_to_history (ctx : JourneyContext) (now : Nat)
    (e : HistoryEvent) : JourneyContext :=
  { ctx with state_history := ctx.state_history ++ [{ e with timestamp := now }] }

/-- `JourneyContext.transition_to`: record a `state_transition` event and
move `current_state`. -/
def JourneyContext.transition_to (ctx : JourneyContext) (now : Nat)
    (new_state : String) (reason : String) : JourneyContext :=
  let ctx1 := ctx.add_to_history now
    { HistoryEvent.base with
        event := "state_transition"
        from_state := some ctx.current_state
        to_state := some new_state
        reason := some reason }
  { ctx1 with current_state := new_state }

/-- `JourneyContext.complete`: set `completed_at` and record a
`journey_completed` event. -/
def JourneyContext.complete (ctx : JourneyContext) (now : Nat) : JourneyContext :=
  let ctx1 := { ctx with completed_at := some now }
  ctx1.add_to_history now
    { HistoryEvent.base with
        event := "journey_completed"
        final_state := some ctx.current_state }

/-! ## Journey matcher and engine
(app/flow_control/journey/matcher.py, engine.py) -/

/-- The parsed structured LLM reply of the transition evaluator. The code
applies Python truthiness to both fields: a missing / false
`should_transition` and a missing / empty `to_state` are both falsy. -/
structure TransitionModelReply where
  should_transition : Bool
  to_state : Option String
deriving Repr, DecidableEq

/-- `JourneyMatcher.can_transition`. The LLM call is modelled by its parsed
reply; `none` models a model-call failure, which the handler turns into
null. The returned `to_state` is passed through without being checked
against the declared transitions. -/
def can_transition (journey : Journey) (current_state : String)
    (reply : Option TransitionModelReply) : Option String :=
  let transitions := journey.get_transitions_from current_state
  if transitions.isEmpty then none
  else
    match reply with
    | none => none
    | some r =>
      match r.to_state with
      | some s => if r.should_transition && s != "" then some s else none
      | none => none

/-- The transition step of `JourneyEngine.process_message` (lines 104-124)
combined with `JourneyEngine.execute_transition`: when `can_transition`
names a target the context transitions to it; the boolean is
`metadata["transition_occurred"]`. -/
def process_message_transition (now : Nat) (journey : Journey)
    (ctx : JourneyContext) (user_message : String)
    (reply : Option TransitionModelReply) : JourneyContext × Bool :=
  match can_transition journey ctx.current_state reply with
  | some target => (ctx.transition_to now target user_message, true)
  | none => (ctx, false)

/-- `JourneyEngine.complete_journey`: completing an already-completed
context is a warning-only no-op. -/
def complete_journey (now : Nat) (ctx : JourneyContext) : JourneyContext :=
  if ctx.is_active then ctx.complete now else ctx

/-- A two-state journey used to exhibit the missing `to_state` validation. -/
def journeyC1 : Journey :=
  { id := 1
    name := "claim_inquiry"
    description := none
    activation_conditions := "customer asks about a claim"
    initial_state := "verify_identity"
    states :=
      [("verify_identity", ⟨"verify_identity", "Ask for the policy number", []⟩),
       ("provide_status", ⟨"provide_status", "Report the claim status", []⟩)]
    transitions := [⟨"verify_identity", "provide_status", "identity verified", 10⟩]
    enabled := true }

/-- A context sitting at the initial state of `journeyC1`. -/
def contextC1 : JourneyContext :=
  { id := 7
    session_id := "session-1"
    journey_id := 1
    journey_name := "claim_inquiry"
    current_state := "verify_identity"
    vars := []
    state_history := []
    activated_at := some 0
    completed_at := none
    created_at := some 0
    updated_at := some 0 }

/-- **C1 counterexample**: the model replies with `to_state = "ship_gold"`,
which is not a declared transition target from `verify_identity` (and not
even a state of the journey), yet `can_transition` returns it and the
engine sets `current_state` to it. -/
theorem can_transition_accepts_undeclared_state :
    can_transition journeyC1 "verify_identity"
        (some ⟨true, some "ship_gold"⟩) = some "ship_gold" ∧
    (journeyC1.get_transitions_from "verify_identity").map
        (fun t => t.to_state) = ["provide_status"] ∧
    (process_message_transition 5 journeyC1 contextC1 "hello"
        (some ⟨true, some "ship_gold"⟩)).1.current_state = "ship_gold" ∧
    journeyC1.get_state "ship_gold" = none := by
  exact ⟨rfl, rfl, rfl, rfl⟩

/-- **C1 amended**: `can_transition` returns exactly the model's `to_state`
whenever some declared transition leaves the current state, the model sets
`should_transition`, and `to_state` is a non-empty string — with no check
that the name is a declared target — and the engine then makes it the
context's `current_state`; a model failure or an absent reply field yields
null. -/
theorem can_transition_trusts_model (j : Journey) (cs s : String)
    (r : TransitionModelReply) (now : Nat) (ctx : JourneyContext) (msg : String)
    (hne : j.get_transitions_from cs ≠ [])
    (hst : r.should_transition = true) (hts : r.to_state = some s)
    (hs : s ≠ "") (hctx : ctx.current_state = cs) :
    can_transition j cs (some r) = some s ∧
    can_transition j cs none = none ∧
    (process_message_transition now j ctx msg (some r)).1.current_state = s := by
  have hemp : (j.get_transitions_from cs).isEmpty = false := by
    cases hl : (j.get_transitions_from cs).isEmpty
    · rfl
    · exact absurd (List.isEmpty_iff.mp hl) hne
  have hcan : can_transition j cs (some r) = some s := by
    simp [can_transition, hemp, hts, hst, hs]
  refine ⟨hcan, ?_, ?_⟩
  · simp [can_transition, hemp]
  · unfold process_message_transition
    rw [hctx, hcan]
    rfl

/-- Witness for C1 (amended) at the concrete journey above. -/
theorem can_transition_trusts_model_witness :
    can_transition journeyC1 "verify_identity"
        (some ⟨true, some "provide_status"⟩) = some "provide_status" ∧
    can_transition journeyC1 "verify_identity" none = none ∧
    (process_message_transition 5 journeyC1 contextC1 "my policy is POL-1"
        (some ⟨true, some "provide_status"⟩)).1.current_state = "provide_status" :=
  can_transition_trusts_model journeyC1 "verify_identity" "provide_status"
    ⟨true, some "provide_status"⟩ 5 contextC1 "my policy is POL-1"
    (by decide) rfl rfl (by decide) rfl

/-- **C8**: after `complete_journey` on an active context `completed_at` is
set and `is_active` is false; a second `complete_journey` is a no-op that
leaves `completed_at`, `is_active` and the state history unchanged. -/
theorem complete_journey_sets_and_is_idempotent (ctx : JourneyContext)
    (now now2 : Nat) (h : ctx.completed_at = none) :
    (complete_journey now ctx).completed_at = some now ∧
    (complete_journey now ctx).is_active = false ∧
    complete_journey now2 (complete_journey now ctx) = complete_journey now ctx := by
  have hact : ctx.is_active = true := by
    simp [JourneyContext.is_active, h]
  have h1 : complete_journey now ctx = ctx.complete now := by
    simp [complete_journey, hact]
  have hc : (ctx.complete now).completed_at = some now := rfl
  refine ⟨by rw [h1]; exact hc, ?_, ?_⟩
  · rw [h1]
    simp [JourneyContext.is_active, hc]
  · rw [h1]
    have : (ctx.complete now).is_active = false := by
      simp [JourneyContext.is_active, hc]
    simp [complete_journey, this]

/-- Witness for C8 at a concrete context. -/
theorem complete_journey_witness :
    (complete_journey 11 contextC1).completed_at = some 11 ∧
    (complete_journey 11 contextC1).is_active = false ∧
    complete_journey 42 (complete_journey 11 contextC1) =
      complete_journey 11 contextC1 :=
  complete_journey_sets_and_is_idempotent contextC1 11 42 rfl

/-! ## Guideline data model (app/flow_control/guideline/models.py) -/

/-- Guideline scope levels (`GuidelineScope`). -/
inductive GuidelineScope where
  | GLOBAL : GuidelineScope
  | JOURNEY : GuidelineScope
  | STATE : GuidelineScope
deriving Repr, DecidableEq

/-- A business rule that constrains AI behavior (`Guideline`). -/
structure Guideline where
  id : Nat
  scope : GuidelineScope
  name : String
  description : Option String
  condition : String
  action : String
  keywords : List String
  tools : List String
  priority : Int
  enabled : Bool
  journey_id : Option Nat
  state_name : Option String
deriving Repr, DecidableEq

/-- `Guideline.__post_init__`: the dataclass validation run at
construction. Python truthiness makes an absent `journey_id` falsy and an
absent or empty `state_name` falsy. There is no check on GLOBAL scope. -/
def Guideline.validate (g : Guideline) : Except String Guideline :=
  if g.name = "" then .error "Guideline name cannot be empty"
  else if g.condition = "" then .error "Guideline condition cannot be empty"
  else if g.action = "" then .error "Guideline action cannot be empty"
  else if g.scope = .JOURNEY ∧ g.journey_id = none then
    .error "JOURNEY scope requires journey_id"
  else if g.scope = .STATE ∧
      (g.journey_id = none ∨ g.state_name = none ∨ g.state_name = some "") then
    .error "STATE scope requires journey_id and state_name"
  else .ok g

/-- `Guideline.matches_scope`; Python `==` on two `None`s is true, matching
`BEq` on `Option`. -/
def Guideline.matches_scope (g : Guideline) (journey_id : Option Nat)
    (state_name : Option String) : Bool :=
  match g.scope with
  | .GLOBAL => true
  | .JOURNEY => g.journey_id == journey_id
  | .STATE => g.journey_id == journey_id && g.state_name == state_name

/-- `Guideline.get_priority_score`: scope base (STATE 3000, JOURNEY 2000,
GLOBAL 1000) plus declared priority; 0 when the scope does not match. -/
def Guideline.get_priority_score (g : Guideline) (journey_id : Option Nat)
    (state_name : Option String) : Int :=
  if !(g.matches_scope journey_id state_name) then 0
  else
    (match g.scope with
      | .STATE => 3000
      | .JOURNEY => 2000
      | .GLOBAL => 1000) + g.priority

/-- A GLOBAL guideline that nevertheless carries a journey id and a state
name. -/
def guidelineC4 : Guideline :=
  { id := 4
    scope := .GLOBAL
    name := "Polite tone"
    description := none
    condition := "always"
    action := "be polite"
    keywords := []
    tools := []
    priority := 5
    enabled := true
    journey_id := some 9
    state_name := some "verify_identity" }

/-- **C4 counterexample**: construction of a GLOBAL guideline with both
`journey_id` and `state_name` set succeeds — the claimed "GLOBAL has
neither" invariant is not enforced by construction. -/
theorem global_guideline_with_ids_constructs :
    Guideline.validate guidelineC4 = .ok guidelineC4 ∧
    guidelineC4.scope = .GLOBAL ∧
    guidelineC4.journey_id ≠ none ∧
    guidelineC4.state_name ≠ none := by
  refine ⟨rfl, rfl, ?_, ?_⟩ <;> decide

/-- **C4 amended**: construction succeeds exactly when name, condition and
action are non-empty, JOURNEY scope has `journey_id` set, and STATE scope
has `journey_id` set and a non-empty `state_name` — GLOBAL scope is not
restricted, so GLOBAL guidelines may carry `journey_id` or `state_name`. -/
theorem guideline_validate_characterization (g : Guideline) :
    Guideline.validate g = .ok g ↔
      (g.name ≠ "" ∧ g.condition ≠ "" ∧ g.action ≠ "" ∧
       (g.scope = .JOURNEY → g.journey_id ≠ none) ∧
       (g.scope = .STATE →
         g.journey_id ≠ none ∧ g.state_name ≠ none ∧ g.state_name ≠ some "")) := by
  unfold Guideline.validate
  split_ifs with h1 h2 h3 h4 h5
  · simp [h1]
  · simp [h2]
  · simp [h3]
  · constructor
    · intro h
      exact absurd h (by simp)
    · intro h
      exact absurd (h.2.2.2.1 h4.1) (by simp [h4.2])
  · constructor
    · intro h
      exact absurd h (by simp)
    · intro h
      rcases h5 with ⟨hsc, hbad⟩
      rcases h.2.2.2.2 hsc with ⟨hj, hs1, hs2⟩
      rcases hbad with hb | hb | hb
      · exact hj hb
      · exact hs1 hb
      · exact hs2 hb
  · constructor
    · intro _
      refine ⟨h1, h2, h3, ?_, ?_⟩
      · intro hsc
        intro hj
        exact h4 ⟨hsc, hj⟩
      · intro hsc
        refine ⟨?_, ?_, ?_⟩ <;> intro hx <;> exact h5 ⟨hsc, by simp [hx]⟩
    · intro _
      rfl

/-! ## Response validator (app/flow_control/validator/post_validator.py) -/

/-- The parsed structured LLM reply of the validation call, after the
`.get(...)` defaulting the code applies. -/
structure ValidationModelReply where
  is_valid : Bool
  violations : List Json
  confidence : ℚ
  suggested_fixes : List String

/-- `ValidationResult`. -/
structure ValidationResult where
  is_valid : Bool
  violations : List Json
  confidence : ℚ
  suggested_fixes : List String
  fixed_response : Option String

/-- One row of the `validation_audit` table, as passed to the INSERT in
`ResponseValidator._log_validation`. -/
structure AuditRecord where
  session_id : String
  journey_id : Option Nat
  guideline_ids : List Nat
  is_valid : Bool
  violations : List Json
  suggested_fixes : List String
  confidence : ℚ
  latency_ms : Nat
  original_response : String
  fixed_response : Option String

/-- `ResponseValidator.validate_response`. External effects are explicit:
`reply` is the parsed validation-call reply (`none` models a model-call
failure caught by the blanket handler), `fixReply` the auto-fix call's
trimmed content (`none` when the fix call fails or is not issued), and
`latency_ms` the measured elapsed time. The second component lists the
audit rows handed to the database; `_log_validation` swallows write
failures, so the returned result never depends on whether the write
succeeded, and the function itself never raises. -/
def validate_response (response : String) (guidelines : List Guideline)
    (session_id : String) (journey_id : Option Nat)
    (reply : Option ValidationModelReply) (fixReply : Option String)
    (latency_ms : Nat) : ValidationResult × List AuditRecord :=
  if guidelines.isEmpty then
    (⟨true, [], 1, [], none⟩, [])
  else
    match reply with
    | none => (⟨true, [], 0, [], none⟩, [])
    | some r =>
      let vr0 : ValidationResult :=
        ⟨r.is_valid, r.violations, r.confidence, r.suggested_fixes, none⟩
      let vr :=
        if !vr0.is_valid && !vr0.suggested_fixes.isEmpty then
          { vr0 with fixed_response := fixReply }
        else vr0
      let audit : AuditRecord :=
        ⟨session_id, journey_id, guidelines.map (fun g => g.id), vr.is_valid,
         vr.violations, vr.suggested_fixes, vr.confidence, latency_ms,
         response, vr.fixed_response⟩
      (vr, [audit])

/-- **C2 counterexample**: with an empty guideline list, and likewise when
the validation model call fails, `validate_response` writes no audit
record at all. -/
theorem validate_response_skips_audit :
    (validate_response "reply" [] "session-1" none
        (some ⟨true, [], 1, []⟩) none 5).2 = [] ∧
    (validate_response "reply" [guidelineC4] "session-1" none
        none none 5).2 = [] := by
  exact ⟨rfl, rfl⟩

/-- **C2 amended**: exactly the invocations that complete the validation
model call write one audit record, and that record carries the measured
latency; the empty-guideline path and the model-failure path write none. -/
theorem validate_response_audit_exactly_on_model_success
    (response session_id : String) (journey_id : Option Nat)
    (guidelines : List Guideline) (r : ValidationModelReply)
    (fixReply : Option String) (latency_ms : Nat) (h : guidelines ≠ []) :
    ((validate_response response guidelines session_id journey_id
        (some r) fixReply latency_ms).2.map (fun a => a.latency_ms) = [latency_ms]) ∧
    (validate_response response [] session_id journey_id
        (some r) fixReply latency_ms).2 = [] ∧
    ((validate_response response guidelines session_id journey_id
        none fixReply latency_ms).2 = []) := by
  have hemp : guidelines.isEmpty = false := by
    cases hl : guidelines.isEmpty
    · rfl
    · exact absurd (List.isEmpty_iff.mp hl) h
  refine ⟨?_, rfl, ?_⟩ <;> simp [validate_response, hemp]

/-- Witness for C2 (amended) at concrete inputs. -/
theorem validate_response_audit_witness :
    ((validate_response "reply" [guidelineC4] "session-1" none
        (some ⟨false, [], 9/10, ["fix it"]⟩) (some "fixed") 37).2.map
          (fun a => a.latency_ms) = [37]) ∧
    (validate_response "reply" [] "session-1" none
        (some ⟨false, [], 9/10, ["fix it"]⟩) (some "fixed") 37).2 = [] ∧
    ((validate_response "reply" [guidelineC4] "session-1" none
        none (some "fixed") 37).2 = []) :=
  validate_response_audit_exactly_on_model_success "reply" "session-1" none
    [guidelineC4] ⟨false, [], 9/10, ["fix it"]⟩ (some "fixed") 37
    (by decide)

/-- **C7**: with an empty guideline list the result is
`valid, no violations, confidence 1.0`; on a validation model-call failure
the result is `valid, no violations, confidence 0.0`. Both paths are plain
returns of the (total) function: neither raises. -/
theorem validate_response_conservative_defaults
    (response session_id : String) (journey_id : Option Nat)
    (guidelines : List Guideline) (reply : Option ValidationModelReply)
    (fixReply : Option String) (latency_ms : Nat) (h : guidelines ≠ []) :
    ((validate_response response [] session_id journey_id reply fixReply
        latency_ms).1 = ⟨true, [], 1, [], none⟩) ∧
    ((validate_response response guidelines session_id journey_id none fixReply
        latency_ms).1 = ⟨true, [], 0, [], none⟩) := by
  have hemp : guidelines.isEmpty = false := by
    cases hl : guidelines.isEmpty
    · rfl
    · exact absurd (List.isEmpty_iff.mp hl) h
  refine ⟨rfl, ?_⟩
  simp [validate_response, hemp]

/-- Witness for C7 at concrete inputs. -/
theorem validate_response_defaults_witness :
    ((validate_response "reply" [] "session-1" none none none 5).1 =
      ⟨true, [], 1, [], none⟩) ∧
    ((validate_response "reply" [guidelineC4] "session-1" none none none 5).1 =
      ⟨true, [], 0, [], none⟩) :=
  validate_response_conservative_defaults "reply" "session-1" none
    [guidelineC4] none none 5 (by decide)

/-! ## Guideline matcher
(app/flow_control/guideline/matcher.py, store.py) -/

/-- A matched guideline with confidence (`GuidelineMatch`). -/
structure GuidelineMatch where
  guideline : Guideline
  confidence : ℚ
  reasoning : String

/-- `GuidelineMatch.__post_init__`: constructing a match with confidence
outside `[0,1]` raises `ValueError` (modelled as `none`). -/
def mkGuidelineMatch (g : Guideline) (confidence : ℚ) (reasoning : String) :
    Option GuidelineMatch :=
  if 0 ≤ confidence ∧ confidence ≤ 1 then some ⟨g, confidence, reasoning⟩
  else none

/-- One entry of the LLM batch reply, after the `.get(...)` defaulting the
code applies (`applies` defaults to false, `confidence` to 0). -/
structure GuidelineVerdict where
  guideline_id : Nat
  applies : Bool
  confidence : ℚ
  reasoning : String

/-- The verdict loop of `GuidelineMatcher._batch_evaluate_guidelines`.
`none` models an exception escaping the loop to the blanket handler:
constructing a match with out-of-range confidence aborts the whole batch
and discards every match built so far. Non-applying verdicts, unknown ids
and confidences below 0.6 are merely skipped. -/
def buildMatches (candidates : List Guideline) :
    List GuidelineVerdict → Option (List GuidelineMatch)
  | [] => some []
  | v :: vs =>
    if !v.applies then buildMatches candidates vs
    else
      match candidates.find? (fun g => g.id == v.guideline_id) with
      | none => buildMatches candidates vs
      | some g =>
        if (0.6 : ℚ) ≤ v.confidence then
          match mkGuidelineMatch g v.confidence v.reasoning with
          | none => none
          | some m => (buildMatches candidates vs).map (fun ms => m :: ms)
        else buildMatches candidates vs

/-- `GuidelineMatcher._batch_evaluate_guidelines`: on a model-call failure
or any exception in the loop the result is the empty list. -/
def batch_evaluate_guidelines (candidates : List Guideline)
    (reply : Option (List GuidelineVerdict)) : List GuidelineMatch :=
  match reply with
  | none => []
  | some verdicts => (buildMatches candidates verdicts).getD []

/-- A character of `\w` after the message has been lowercased. -/
def isWordChar (c : Char) : Bool :=
  c.isAlphanum || c = '_'

/-- Maximal runs of word characters, as `re.findall(r'\b\w+\b', s)`. -/
def tokenizeAux : List Char → List Char → List String
  | [], acc => if acc.isEmpty then [] else [String.mk acc.reverse]
  | c :: cs, acc =>
    if isWordChar c then tokenizeAux cs (c :: acc)
    else if acc.isEmpty then tokenizeAux cs []
    else String.mk acc.reverse :: tokenizeAux cs []

/-- The stopword set of `GuidelineMatcher.extract_keywords`. -/
def stopwords : List String :=
  ["the", "a", "an", "and", "or", "but", "is", "are", "was", "were",
   "be", "been", "being", "have", "has", "had", "do", "does", "did",
   "will", "would", "should", "could", "may", "might", "can", "i",
   "you", "he", "she", "it", "we", "they", "my", "your", "his", "her",
   "its", "our", "their", "this", "that", "these", "those"]

/-- `GuidelineMatcher.extract_keywords` with the default `min_length = 3`:
lowercase, split on word characters, drop short words and stopwords.
Lowercasing is applied per character, which on the character list is the
same operation as `message.lower()`. -/
def extract_keywords (message : String) : List String :=
  let words := tokenizeAux (message.toList.map Char.toLower) []
  words.filter (fun w => decide (3 ≤ w.length) && !(stopwords.contains w))

/-- `str.lower()` applied character by character. -/
def lowerStr (s : String) : String :=
  String.mk (s.toList.map Char.toLower)

/-- `GuidelineStore.get_candidates_by_keywords`: union of the inverted
index's posting lists over the message keywords (the index maps lowercase
keyword to guideline ids). -/
def get_candidates_by_keywords (index : List (String × List Nat))
    (message_keywords : List String) : List Nat :=
  (message_keywords.map (fun kw => (index.lookup (lowerStr kw)).getD [])).flatten

/-- SQL `=` with NULL semantics: a comparison against NULL is not true. -/
def sqlEq {α : Type} [BEq α] : Option α → Option α → Bool
  | some a, some b => a == b
  | _, _ => false

/-- `GuidelineStore.get_guidelines_by_scope`: the SQL filter
(enabled, and GLOBAL, or JOURNEY with matching journey id, or STATE with
matching journey id and state name) ordered by priority descending then
name. `allG` models the table rows. The name comparison is stated on the
character lists, which is the same order as `String` `≤`
(`String.le_iff_toList_le`) but evaluates inside the kernel. -/
def get_guidelines_by_scope (allG : List Guideline) (journey_id : Option Nat)
    (state_name : Option String) : List Guideline :=
  List.insertionSort
    (fun a b => b.priority < a.priority ∨
      (a.priority = b.priority ∧ a.name.toList ≤ b.name.toList))
    (allG.filter (fun g => g.enabled &&
      (g.scope == .GLOBAL ||
       (g.scope == .JOURNEY && sqlEq g.journey_id journey_id) ||
       (g.scope == .STATE && sqlEq g.journey_id journey_id &&
        sqlEq g.state_name state_name))))

/-- `GuidelineStore.get_guidelines_by_ids` over `get_guideline`: fetch each
id, dropping ids that resolve to no enabled guideline. -/
def get_guidelines_by_ids (allG : List Guideline) (ids : List Nat) :
    List Guideline :=
  ids.filterMap (fun gid => allG.find? (fun g => g.id == gid && g.enabled))

/-- The priority-descending comparison `match_guidelines` sorts with;
Python's stable `sort(key=score, reverse=True)` keeps tied elements in
their pre-sort order, which `insertionSort` with this non-strict relation
reproduces. -/
def scoreGE (journey_id : Option Nat) (state_name : Option String)
    (a b : GuidelineMatch) : Prop :=
  b.guideline.get_priority_score journey_id state_name ≤
    a.guideline.get_priority_score journey_id state_name

instance (journey_id : Option Nat) (state_name : Option String) :
    DecidableRel (scoreGE journey_id state_name) :=
  fun _a _b => inferInstanceAs (Decidable (_ ≤ _))

/-- Stage 1 of `GuidelineMatcher.match_guidelines` (lines 70-87): keyword
pre-filter, scope intersection, and the first-20 fallback when the
keyword intersection is empty but scope-eligible guidelines exist. -/
def stage1_candidates (user_message : String) (journey_id : Option Nat)
    (state_name : Option String) (index : List (String × List Nat))
    (allG : List Guideline) : List Guideline :=
  let message_keywords := extract_keywords user_message
  let candidate_ids := get_candidates_by_keywords index message_keywords
  let scope_guidelines := get_guidelines_by_scope allG journey_id state_name
  let scope_ids := scope_guidelines.map (fun g => g.id)
  let relevant_ids := scope_ids.filter (fun i => candidate_ids.contains i)
  let relevant_ids :=
    if relevant_ids.isEmpty && !scope_guidelines.isEmpty then
      (scope_guidelines.take 20).map (fun g => g.id)
    else relevant_ids
  get_guidelines_by_ids allG relevant_ids

/-- `GuidelineMatcher.match_guidelines`: stage 1, then the stage-2 batch
evaluation, then the final priority sort. -/
def match_guidelines (user_message : String) (journey_id : Option Nat)
    (state_name : Option String) (index : List (String × List Nat))
    (allG : List Guideline) (reply : Option (List GuidelineVerdict)) :
    List GuidelineMatch :=
  let candidates := stage1_candidates user_message journey_id state_name index allG
  if candidates.isEmpty then []
  else
    List.insertionSort (scoreGE journey_id state_name)
      (batch_evaluate_guidelines candidates reply)

instance (journey_id : Option Nat) (state_name : Option String) :
    IsTotal GuidelineMatch (scoreGE journey_id state_name) :=
  ⟨fun a b => by
    unfold scoreGE
    exact le_total _ _⟩

instance (journey_id : Option Nat) (state_name : Option String) :
    IsTrans GuidelineMatch (scoreGE journey_id state_name) :=
  ⟨fun a b c hab hbc => by
    unfold scoreGE at hab hbc ⊢
    exact le_trans hbc hab⟩

/-- Every match a successful verdict loop emits was gated on
`confidence >= 0.6` and passed the `[0,1]` constructor check. -/
theorem buildMatches_conf (candidates : List Guideline) :
    ∀ (vs : List GuidelineVerdict) (ms : List GuidelineMatch),
      buildMatches candidates vs = some ms →
      ∀ m ∈ ms, (0.6 : ℚ) ≤ m.confidence ∧ m.confidence ≤ 1 := by
  intro vs
  induction vs with
  | nil =>
    intro ms h m hm
    simp only [buildMatches, Option.some.injEq] at h
    subst h
    simp at hm
  | cons v vs ih =>
    intro ms h m hm
    by_cases hap : (!v.applies) = true
    · simp only [buildMatches, if_pos hap] at h
      exact ih ms h m hm
    · cases hfind : candidates.find? (fun g => g.id == v.guideline_id) with
      | none =>
        simp only [buildMatches, if_neg hap, hfind] at h
        exact ih ms h m hm
      | some g =>
        by_cases hc : (0.6 : ℚ) ≤ v.confidence
        · cases hmk : mkGuidelineMatch g v.confidence v.reasoning with
          | none =>
            simp only [buildMatches, if_neg hap, hfind, if_pos hc, hmk] at h
            exact Option.noConfusion h
          | some m0 =>
            simp only [buildMatches, if_neg hap, hfind, if_pos hc, hmk] at h
            cases hbm : buildMatches candidates vs with
            | none =>
              rw [hbm] at h
              simp only [Option.map_none'] at h
              exact Option.noConfusion h
            | some ms0 =>
              rw [hbm] at h
              simp only [Option.map_some', Option.some.injEq] at h
              subst h
              rcases List.mem_cons.mp hm with rfl | hm0
              · unfold mkGuidelineMatch at hmk
                split_ifs at hmk with hrange
                · cases hmk
                  exact ⟨hc, hrange.2⟩
              · exact ih ms0 hbm m hm0
        · simp only [buildMatches, if_neg hap, hfind, if_neg hc] at h
          exact ih ms h m hm

/-- Every match of a batch evaluation has confidence in `[0.6, 1]`. -/
theorem batch_evaluate_conf (candidates : List Guideline)
    (reply : Option (List GuidelineVerdict)) (m : GuidelineMatch)
    (hm : m ∈ batch_evaluate_guidelines candidates reply) :
    (0.6 : ℚ) ≤ m.confidence ∧ m.confidence ≤ 1 := by
  cases reply with
  | none => simp [batch_evaluate_guidelines] at hm
  | some verdicts =>
    cases hbm : buildMatches candidates verdicts with
    | none =>
      simp only [batch_evaluate_guidelines, hbm] at hm
      simp at hm
    | some ms =>
      simp only [batch_evaluate_guidelines, hbm, Option.getD_some] at hm
      exact buildMatches_conf candidates verdicts ms hbm m hm

/-- **C3 amended**: the final match list is sorted non-increasing by the
priority score — ties keep the order of the model's verdicts (Python's
sort is stable), they are not re-ordered by guideline name — and every
match has confidence in `[0.6, 1]`. -/
theorem match_guidelines_sorted_desc_and_confident (msg : String)
    (journey_id : Option Nat) (state_name : Option String)
    (index : List (String × List Nat)) (allG : List Guideline)
    (reply : Option (List GuidelineVerdict)) :
    List.Sorted (scoreGE journey_id state_name)
      (match_guidelines msg journey_id state_name index allG reply) ∧
    List.Forall (fun m => (0.6 : ℚ) ≤ m.confidence ∧ m.confidence ≤ 1)
      (match_guidelines msg journey_id state_name index allG reply) := by
  constructor
  · simp only [match_guidelines]
    split
    · exact List.sorted_nil
    · exact List.sorted_insertionSort _ _
  · rw [List.forall_iff_forall_mem]
    intro m hm
    simp only [match_guidelines] at hm
    split at hm
    · simp at hm
    · rw [List.mem_insertionSort] at hm
      exact batch_evaluate_conf _ _ _ hm

/-- The ordering the claim asserts: non-increasing score with ties broken
by ascending guideline name. -/
def sortedByScoreThenName (journey_id : Option Nat) (state_name : Option String)
    (ms : List GuidelineMatch) : Prop :=
  ms.Pairwise (fun a b =>
    b.guideline.get_priority_score journey_id state_name <
        a.guideline.get_priority_score journey_id state_name ∨
      (a.guideline.get_priority_score journey_id state_name =
          b.guideline.get_priority_score journey_id state_name ∧
        a.guideline.name ≤ b.guideline.name))

/-- A GLOBAL guideline named late in the alphabet. -/
def g3a : Guideline :=
  { id := 1, scope := .GLOBAL, name := "zeta_rule", description := none
    condition := "customer asks for a refund", action := "explain the policy"
    keywords := ["refund"], tools := [], priority := 10, enabled := true
    journey_id := none, state_name := none }

/-- A GLOBAL guideline named early in the alphabet, same priority. -/
def g3b : Guideline :=
  { id := 2, scope := .GLOBAL, name := "alpha_rule", description := none
    condition := "customer mentions a payment", action := "offer the portal"
    keywords := ["refund"], tools := [], priority := 10, enabled := true
    journey_id := none, state_name := none }

/-- **C3 counterexample**: two guidelines with equal priority score, where
the model's verdicts arrive with the alphabetically later name first; the
final list keeps the verdict order, so the tie is not broken by guideline
name and the claimed ordering predicate fails. -/
theorem match_guidelines_ties_not_broken_by_name :
    ¬ sortedByScoreThenName none none
      (match_guidelines "please refund me" none none [("refund", [1, 2])]
        [g3a, g3b]
        (some [⟨1, true, 0.9, "matches"⟩, ⟨2, true, 0.9, "matches"⟩])) := by
  intro hcl
  have h1 : stage1_candidates "please refund me" none none [("refund", [1, 2])]
      [g3a, g3b] = [g3b, g3a] := by decide
  have hq1 : (0.6 : ℚ) ≤ 0.9 := by norm_num
  have hq2 : (0 : ℚ) ≤ 0.9 := by norm_num
  have hq3 : (0.9 : ℚ) ≤ 1 := by norm_num
  have hb : buildMatches [g3b, g3a]
      [⟨1, true, 0.9, "matches"⟩, ⟨2, true, 0.9, "matches"⟩] =
      some [⟨g3a, 0.9, "matches"⟩, ⟨g3b, 0.9, "matches"⟩] := by
    simp [buildMatches, mkGuidelineMatch, g3a, g3b, hq1, hq2, hq3]
  have hout : match_guidelines "please refund me" none none [("refund", [1, 2])]
      [g3a, g3b]
      (some [⟨1, true, 0.9, "matches"⟩, ⟨2, true, 0.9, "matches"⟩]) =
      [⟨g3a, 0.9, "matches"⟩, ⟨g3b, 0.9, "matches"⟩] := by
    simp only [match_guidelines, h1]
    rw [if_neg (by simp)]
    simp only [batch_evaluate_guidelines, hb, Option.getD_some]
    rfl
  rw [hout] at hcl
  unfold sortedByScoreThenName at hcl
  rw [List.pairwise_cons] at hcl
  have hrel := hcl.1 ⟨g3b, 0.9, "matches"⟩ (by simp)
  rcases hrel with hlt | ⟨_, hle⟩
  · exact absurd hlt (by decide)
  · rw [String.le_iff_toList_le] at hle
    exact absurd hle (by decide)

/-- A GLOBAL guideline without keyword hints. -/
def g5 : Guideline :=
  { id := 5, scope := .GLOBAL, name := "greeting", description := none
    condition := "always", action := "greet politely", keywords := []
    tools := [], priority := 0, enabled := true
    journey_id := none, state_name := none }

/-- **C5 counterexample**: an empty utterance yields zero keywords and zero
keyword candidates, but because a scope-eligible guideline exists, the
first-20 fallback submits it to stage 2 and the final match list is
non-empty. -/
theorem match_guidelines_empty_utterance_nonempty :
    extract_keywords "" = [] ∧
    get_candidates_by_keywords [] (extract_keywords "") = [] ∧
    match_guidelines "" none none [] [g5]
      (some [⟨5, true, 1, "always applies"⟩]) ≠ [] := by
  refine ⟨rfl, rfl, ?_⟩
  have h1 : stage1_candidates "" none none [] [g5] = [g5] := by decide
  have hq1 : (0.6 : ℚ) ≤ 1 := by norm_num
  have hq2 : (0 : ℚ) ≤ 1 := by norm_num
  have hb : buildMatches [g5] [⟨5, true, 1, "always applies"⟩] =
      some [⟨g5, 1, "always applies"⟩] := by
    simp [buildMatches, mkGuidelineMatch, g5, hq1, hq2]
  have hout : match_guidelines "" none none [] [g5]
      (some [⟨5, true, 1, "always applies"⟩]) = [⟨g5, 1, "always applies"⟩] := by
    simp only [match_guidelines, h1]
    rw [if_neg (by simp)]
    simp only [batch_evaluate_guidelines, hb, Option.getD_some]
    rfl
  rw [hout]
  simp

/-- **C5 amended**: an empty utterance yields zero extracted keywords and
zero keyword candidates; the match list is empty whenever the
scope-eligible set is empty — otherwise the fallback hands the first 20
scope guidelines to stage 2, so the list need not be empty. -/
theorem match_guidelines_empty_utterance (journey_id : Option Nat)
    (state_name : Option String) (index : List (String × List Nat))
    (allG : List Guideline) (reply : Option (List GuidelineVerdict))
    (h : get_guidelines_by_scope allG journey_id state_name = []) :
    extract_keywords "" = [] ∧
    get_candidates_by_keywords index (extract_keywords "") = [] ∧
    match_guidelines "" journey_id state_name index allG reply = [] := by
  refine ⟨rfl, rfl, ?_⟩
  have h1 : stage1_candidates "" journey_id state_name index allG = [] := by
    simp only [stage1_candidates]
    rw [h]
    simp [get_guidelines_by_ids]
  simp only [match_guidelines, h1]
  rfl

/-- Witness for C5 (amended) at concrete inputs. -/
theorem match_guidelines_empty_utterance_witness :
    extract_keywords "" = [] ∧
    get_candidates_by_keywords [("refund", [1, 2])] (extract_keywords "") = [] ∧
    match_guidelines "" none none [("refund", [1, 2])] [] none = [] :=
  match_guidelines_empty_utterance none none [("refund", [1, 2])] [] none rfl

/-- A candidate guideline for the batch-evaluation claims. -/
def g10a : Guideline :=
  { id := 11, scope := .GLOBAL, name := "rule_a", description := none
    condition := "reply quotes an amount", action := "avoid exact amounts"
    keywords := [], tools := [], priority := 0, enabled := true
    journey_id := none, state_name := none }

/-- A second candidate guideline for the batch-evaluation claims. -/
def g10b : Guideline :=
  { id := 12, scope := .GLOBAL, name := "rule_b", description := none
    condition := "reply promises a deadline", action := "avoid firm deadlines"
    keywords := [], tools := [], priority := 0, enabled := true
    journey_id := none, state_name := none }

/-- An exception anywhere later in the verdict loop still discards the
whole batch. -/
theorem buildMatches_cons_none (candidates : List Guideline)
    (v : GuidelineVerdict) (vs : List GuidelineVerdict)
    (h : buildMatches candidates vs = none) :
    buildMatches candidates (v :: vs) = none := by
  by_cases hap : (!v.applies) = true
  · simp only [buildMatches, if_pos hap]
    exact h
  · cases hfind : candidates.find? (fun g => g.id == v.guideline_id) with
    | none =>
      simp only [buildMatches, if_neg hap, hfind]
      exact h
    | some g =>
      by_cases hc : (0.6 : ℚ) ≤ v.confidence
      · cases hmk : mkGuidelineMatch g v.confidence v.reasoning with
        | none =>
          simp only [buildMatches, if_neg hap, hfind, if_pos hc, hmk]
        | some m =>
          simp only [buildMatches, if_neg hap, hfind, if_pos hc, hmk, h]
          rfl
      · simp only [buildMatches, if_neg hap, hfind, if_neg hc]
        exact h

/-- An applying verdict with a known candidate id and confidence above 1
makes the verdict loop raise, discarding the batch. -/
theorem buildMatches_none_of_overrange (candidates : List Guideline) :
    ∀ (vs : List GuidelineVerdict) (v : GuidelineVerdict), v ∈ vs →
      v.applies = true →
      (candidates.find? (fun g => g.id == v.guideline_id)).isSome →
      1 < v.confidence →
      buildMatches candidates vs = none := by
  intro vs
  induction vs with
  | nil =>
    intro v hv
    simp at hv
  | cons w ws ih =>
    intro v hv ha hf hc
    rcases List.mem_cons.mp hv with rfl | hv'
    · obtain ⟨g, hg⟩ := Option.isSome_iff_exists.mp hf
      have h06 : (0.6 : ℚ) ≤ v.confidence :=
        le_trans (by norm_num : (0.6 : ℚ) ≤ 1) hc.le
      have hmk : mkGuidelineMatch g v.confidence v.reasoning = none := by
        unfold mkGuidelineMatch
        rw [if_neg]
        rintro ⟨_, h1⟩
        exact absurd hc (not_lt.mpr h1)
      simp only [buildMatches, if_neg (by simp [ha] : ¬(!v.applies) = true),
        hg, if_pos h06, hmk]
    · exact buildMatches_cons_none candidates w ws (ih v hv' ha hf hc)

/-- **C10 amended**: a batch reply containing an applying verdict whose id
maps to a candidate and whose confidence exceeds 1 makes the whole batch
evaluation return the empty list — the constructor raises, the blanket
handler catches, and the other matches are discarded. (A confidence below
0 is merely skipped by the `>= 0.6` gate and raises nothing.) -/
theorem batch_evaluate_empty_on_overrange (candidates : List Guideline)
    (verdicts : List GuidelineVerdict) (v : GuidelineVerdict)
    (hv : v ∈ verdicts) (ha : v.applies = true)
    (hf : (candidates.find? (fun g => g.id == v.guideline_id)).isSome)
    (hc : 1 < v.confidence) :
    batch_evaluate_guidelines candidates (some verdicts) = [] := by
  simp only [batch_evaluate_guidelines,
    buildMatches_none_of_overrange candidates verdicts v hv ha hf hc]
  rfl

/-- Witness for C10 (amended) at the claim's example confidence 1.5. -/
theorem batch_evaluate_empty_on_overrange_witness :
    batch_evaluate_guidelines [g10a, g10b]
      (some [⟨11, true, 0.9, "ok"⟩, ⟨12, true, 1.5, "over"⟩]) = [] :=
  batch_evaluate_empty_on_overrange [g10a, g10b]
    [⟨11, true, 0.9, "ok"⟩, ⟨12, true, 1.5, "over"⟩]
    ⟨12, true, 1.5, "over"⟩ (by simp) rfl (by decide) (by norm_num)

/-- **C10 counterexample**: a verdict with `applies = true` and confidence
`-0.5` — outside `[0,1]` — does not raise: it is skipped by the `>= 0.6`
gate, and the other valid match in the same batch is kept, so the batch is
not discarded as the claim requires. -/
theorem batch_evaluate_keeps_batch_on_negative_confidence :
    ¬((0 : ℚ) ≤ -0.5 ∧ (-0.5 : ℚ) ≤ 1) ∧
    batch_evaluate_guidelines [g10a, g10b]
      (some [⟨11, true, 0.9, "ok"⟩, ⟨12, true, -0.5, "bad"⟩]) =
      [⟨g10a, 0.9, "ok"⟩] := by
  constructor
  · rintro ⟨h0, _⟩
    norm_num at h0
  · have hq1 : (0.6 : ℚ) ≤ 0.9 := by norm_num
    have hq2 : (0 : ℚ) ≤ 0.9 := by norm_num
    have hq3 : (0.9 : ℚ) ≤ 1 := by norm_num
    have hq4 : ¬((0.6 : ℚ) ≤ -0.5) := by norm_num
    simp [batch_evaluate_guidelines, buildMatches, mkGuidelineMatch,
      g10a, g10b, hq1, hq2, hq3, hq4]

/-! ## Tool executor (app/tools/executor.py, registry.py and the
registrations in app/tools/customer_tools.py, claims_tools.py,
knowledge_tools.py) -/

/-- A tool's rate-limit policy dictionary. -/
structure RateLimitPolicy where
  max_calls : Nat
  window : Nat
  identifier_field : String
deriving Repr, DecidableEq

/-- `ToolDefinition` (the callable itself is the `behavior` parameter of
the executor semantics; timeouts are wall-clock and not modelled). -/
structure ToolDefinition where
  name : String
  cache_ttl : Option Nat
  timeout : Nat
  rate_limit : Option RateLimitPolicy
deriving Repr, DecidableEq

/-- The six `@tool_registry.register(...)` calls of the repository, in
registration order. -/
def registered_tools : List ToolDefinition :=
  [⟨"get_customer_info", some 1800, 5, none⟩,
   ⟨"verify_customer_identity", none, 5, some ⟨3, 3600, "phone"⟩⟩,
   ⟨"get_claim_status", some 1800, 5, none⟩,
   ⟨"list_customer_claims", some 1800, 5, none⟩,
   ⟨"submit_claim", none, 10, none⟩,
   ⟨"search_knowledge_base", some 1800, 10, none⟩]

/-- Python `str()` of a value, as interpolated into the rate-limit key
(identifiers are strings in practice; composite values are approximated
by their JSON rendering). -/
def pyStr : Json → String
  | .null => "None"
  | .bool true => "True"
  | .bool false => "False"
  | .num n => toString n
  | .str s => s
  | .arr xs => Json.dumps (.arr xs)
  | .obj fs => Json.dumps (.obj fs)

/-- `ToolExecutor._compute_rate_limit_key`. -/
def rate_limit_key (tool_name identifier : String) : String :=
  "tool:ratelimit:" ++ tool_name ++ ":" ++ identifier

/-- The external key/value service, assumed functioning: rate-limit
counters and the L3 tool-result cache. Overwrites are modelled by
prepending, reads by first match. TTLs are not modelled: every call in a
trace happens inside the rate-limit window and the cache TTL. -/
structure KVState where
  counters : List (String × Nat)
  cache : List (String × Json)

/-- The errors `ToolExecutor.execute` can raise. -/
inductive ToolError where
  | toolNotFound (name : String) : ToolError
  | rateLimitExceeded (name : String) : ToolError
deriving Repr, DecidableEq

/-- `ToolExecutor._check_rate_limit`: no policy, missing identifier, or a
falsy identifier skip the check; otherwise the counter is read, rejected
at `max_calls`, and incremented (first increment writes 1 with the window
TTL, later ones increment). -/
def check_rate_limit (td : ToolDefinition) (args : List (String × Json))
    (st : KVState) : Except ToolError KVState :=
  match td.rate_limit with
  | none => .ok st
  | some rl =>
    match args.lookup rl.identifier_field with
    | none => .ok st
    | some v =>
      if !v.truthy then .ok st
      else
        let key := rate_limit_key td.name (pyStr v)
        let current := (st.counters.lookup key).getD 0
        if current ≥ rl.max_calls then .error (.rateLimitExceeded td.name)
        else if current == 0 then
          .ok { st with counters := (key, 1) :: st.counters }
        else
          .ok { st with counters := (key, current + 1) :: st.counters }

/-- The outcome of one `execute` call: the returned value or raised error,
whether the underlying callable ran, and the key/value state after the
call. -/
structure ExecOutcome where
  result : Except ToolError Json
  invoked : Bool
  state : KVState

/-- `ToolExecutor.execute`: unknown tool, then rate limit, then (when
`cache_ttl` is set) the L3 result cache, then the callable — modelled by
`behavior` — whose result is cached when `cache_ttl` is set. `hsh` models
`sha256(..).hexdigest()` in the cache key. -/
def execute (behavior : String → List (String × Json) → Json)
    (hsh : String → String) (registry : List ToolDefinition)
    (tool_name : String) (args : List (String × Json)) (st : KVState) :
    ExecOutcome :=
  match registry.find? (fun t => t.name == tool_name) with
  | none => ⟨.error (.toolNotFound tool_name), false, st⟩
  | some td =>
    match check_rate_limit td args st with
    | .error e => ⟨.error e, false, st⟩
    | .ok st1 =>
      match td.cache_ttl with
      | some _ =>
        match st1.cache.lookup (computeCacheKey hsh tool_name args) with
        | some cached => ⟨.ok cached, false, st1⟩
        | none =>
          let result := behavior tool_name args
          ⟨.ok result, true,
            { st1 with
                cache := (computeCacheKey hsh tool_name args, result) :: st1.cache }⟩
      | none => ⟨.ok (behavior tool_name args), true, st1⟩

/-- A sequence of calls to one tool, each starting from the previous
call's key/value state. -/
def execute_calls (behavior : String → List (String × Json) → Json)
    (hsh : String → String) (registry : List ToolDefinition)
    (tool_name : String) : List (List (String × Json)) → KVState →
    List ExecOutcome
  | [], _ => []
  | a :: rest, st =>
    let r := execute behavior hsh registry tool_name a st
    r :: execute_calls behavior hsh registry tool_name rest r.state

/-- **C6**: for the repository's rate-limited tool registration
(`max_calls = 3`), with the identifier present (and truthy) in every
argument dictionary and the KV counter functioning and fresh for this
identifier, calls 1 through `max_calls` invoke the underlying callable and
return its results, and call `max_calls + 1` raises `RateLimitExceeded`
without invoking the callable. -/
theorem rate_limited_tool_enforces_window
    (behavior : String → List (String × Json) → Json) (hsh : String → String)
    (td : ToolDefinition) (rl : RateLimitPolicy)
    (htd : td ∈ registered_tools) (hrl : td.rate_limit = some rl)
    (v : Json) (a₁ a₂ a₃ a₄ : List (String × Json)) (st : KVState)
    (hv : v.truthy = true)
    (h₁ : a₁.lookup rl.identifier_field = some v)
    (h₂ : a₂.lookup rl.identifier_field = some v)
    (h₃ : a₃.lookup rl.identifier_field = some v)
    (h₄ : a₄.lookup rl.identifier_field = some v)
    (hst : st.counters.lookup (rate_limit_key td.name (pyStr v)) = none) :
    ((execute_calls behavior hsh registered_tools td.name [a₁, a₂, a₃, a₄]
        st).map (fun o => o.result) =
      [.ok (behavior td.name a₁), .ok (behavior td.name a₂),
       .ok (behavior td.name a₃), .error (.rateLimitExceeded td.name)]) ∧
    ((execute_calls behavior hsh registered_tools td.name [a₁, a₂, a₃, a₄]
        st).map (fun o => o.invoked) = [true, true, true, false]) := by
  have htd2 : td = ⟨"verify_customer_identity", none, 5, some ⟨3, 3600, "phone"⟩⟩ := by
    simp only [registered_tools, List.mem_cons, List.not_mem_nil, or_false] at htd
    rcases htd with rfl | rfl | rfl | rfl | rfl | rfl <;>
      first
        | rfl
        | exact absurd hrl (by simp)
  subst htd2
  simp only [Option.some.injEq] at hrl
  subst hrl
  simp only at h₁ h₂ h₃ h₄ hst ⊢
  have hfind : registered_tools.find?
      (fun t => t.name == "verify_customer_identity") =
      some ⟨"verify_customer_identity", none, 5, some ⟨3, 3600, "phone"⟩⟩ := rfl
  have hkey : ∀ (a : List (String × Json)) (st' : KVState) (c : Nat),
      a.lookup "phone" = some v →
      st'.counters.lookup
        (rate_limit_key "verify_customer_identity" (pyStr v)) = some c →
      c < 3 →
      check_rate_limit ⟨"verify_customer_identity", none, 5, some ⟨3, 3600, "phone"⟩⟩
        a st' =
        .ok { st' with
          counters := (rate_limit_key "verify_customer_identity" (pyStr v),
            c + 1) :: st'.counters } := by
    intro a st' c ha hc hlt
    simp only [check_rate_limit, ha, hv, Bool.not_true, Bool.false_eq_true,
      if_false, hc, Option.getD_some]
    rw [if_neg (by omega)]
    cases c with
    | zero => simp
    | succ n => simp
  have hkey0 : ∀ (a : List (String × Json)),
      a.lookup "phone" = some v →
      check_rate_limit ⟨"verify_customer_identity", none, 5, some ⟨3, 3600, "phone"⟩⟩
        a st =
        .ok { st with
          counters := (rate_limit_key "verify_customer_identity" (pyStr v),
            1) :: st.counters } := by
    intro a ha
    simp only [check_rate_limit, ha, hv, Bool.not_true, Bool.false_eq_true,
      if_false, hst, Option.getD_none]
    rw [if_neg (by omega)]
    simp
  have hlookup : ∀ (tail : List (String × Nat)) (c : Nat),
      List.lookup (rate_limit_key "verify_customer_identity" (pyStr v))
        ((rate_limit_key "verify_customer_identity" (pyStr v), c) :: tail) =
        some c := by
    intro tail c
    simp [List.lookup]
  have hexec : ∀ (a : List (String × Json)) (st' stNew : KVState),
      check_rate_limit ⟨"verify_customer_identity", none, 5, some ⟨3, 3600, "phone"⟩⟩
          a st' = .ok stNew →
      execute behavior hsh registered_tools "verify_customer_identity" a st' =
        ⟨.ok (behavior "verify_customer_identity" a), true, stNew⟩ := by
    intro a st' stNew hcr
    simp only [execute, hfind, hcr]
  have e1 := hexec a₁ st _ (hkey0 a₁ h₁)
  have e2 := hexec a₂ ⟨(rate_limit_key "verify_customer_identity" (pyStr v), 1)
      :: st.counters, st.cache⟩ _
    (hkey a₂ _ 1 h₂ (hlookup _ 1) (by omega))
  have e3 := hexec a₃ ⟨(rate_limit_key "verify_customer_identity" (pyStr v), 1 + 1)
      :: (rate_limit_key "verify_customer_identity" (pyStr v), 1)
      :: st.counters, st.cache⟩ _
    (hkey a₃ _ (1 + 1) h₃ (hlookup _ (1 + 1)) (by omega))
  have hcr4 : check_rate_limit
      ⟨"verify_customer_identity", none, 5, some ⟨3, 3600, "phone"⟩⟩ a₄
      ⟨(rate_limit_key "verify_customer_identity" (pyStr v), 1 + 1 + 1) ::
        (rate_limit_key "verify_customer_identity" (pyStr v), 1 + 1) ::
        (rate_limit_key "verify_customer_identity" (pyStr v), 1) ::
        st.counters, st.cache⟩ =
      .error (.rateLimitExceeded "verify_customer_identity") := by
    simp only [check_rate_limit, h₄, hv, Bool.not_true, Bool.false_eq_true,
      if_false, hlookup, Option.getD_some]
    rw [if_pos (by omega)]
  have e4 : execute behavior hsh registered_tools "verify_customer_identity" a₄
      ⟨(rate_limit_key "verify_customer_identity" (pyStr v), 1 + 1 + 1) ::
        (rate_limit_key "verify_customer_identity" (pyStr v), 1 + 1) ::
        (rate_limit_key "verify_customer_identity" (pyStr v), 1) ::
        st.counters, st.cache⟩ =
      ⟨.error (.rateLimitExceeded "verify_customer_identity"), false,
        ⟨(rate_limit_key "verify_customer_identity" (pyStr v), 1 + 1 + 1) ::
          (rate_limit_key "verify_customer_identity" (pyStr v), 1 + 1) ::
          (rate_limit_key "verify_customer_identity" (pyStr v), 1) ::
          st.counters, st.cache⟩⟩ := by
    simp only [execute, hfind, hcr4]
  simp only [execute_calls, e1, e2, e3, e4, List.map_cons, List.map_nil]
  constructor <;> trivial

/-- Witness for C6 at a concrete phone identifier and empty initial KV
state. -/
theorem rate_limited_tool_witness :
    ((execute_calls (fun _ _ => Json.bool true) (fun s => s) registered_tools
        "verify_customer_identity"
        [[("phone", Json.str "+1-555-0101")], [("phone", Json.str "+1-555-0101")],
         [("phone", Json.str "+1-555-0101")], [("phone", Json.str "+1-555-0101")]]
        ⟨[], []⟩).map (fun o => o.result) =
      [.ok (Json.bool true), .ok (Json.bool true), .ok (Json.bool true),
       .error (.rateLimitExceeded "verify_customer_identity")]) ∧
    ((execute_calls (fun _ _ => Json.bool true) (fun s => s) registered_tools
        "verify_customer_identity"
        [[("phone", Json.str "+1-555-0101")], [("phone", Json.str "+1-555-0101")],
         [("phone", Json.str "+1-555-0101")], [("phone", Json.str "+1-555-0101")]]
        ⟨[], []⟩).map (fun o => o.invoked) = [true, true, true, false]) :=
  rate_limited_tool_enforces_window (fun _ _ => Json.bool true) (fun s => s)
    ⟨"verify_customer_identity", none, 5, some ⟨3, 3600, "phone"⟩⟩
    ⟨3, 3600, "phone"⟩ (by simp [registered_tools]) rfl
    (Json.str "+1-555-0101")
    [("phone", Json.str "+1-555-0101")] [("phone", Json.str "+1-555-0101")]
    [("phone", Json.str "+1-555-0101")] [("phone", Json.str "+1-555-0101")]
    ⟨[], []⟩ rfl rfl rfl rfl rfl rfl

end AICC
